import Mathlib

/-!
Verification of the multiplayer session layer of a dungeon-crawler game.

The relay process keeps an in-memory registry of rooms (server.js); each
room owns a player roster, a generation seed, and enemy and item tables.
Clients connect through a resilience controller (MultiplayerService) and
reconcile relayed entity snapshots into local scene state (GameScene).

The relay state and its message handlers are embedded shallowly below:
JavaScript objects become association lists from string keys to values
(insertion order preserved, first occurrence wins on lookup, assignment
updates the first matching entry in place and appends when the key is
absent, delete removes every entry of the key, as keys of a JS object
are unique).  Handlers are pure functions from state and message to a
new state plus a list of emitted broadcasts.
-/

namespace DungeonCrawler

/-- Lookup of a string key in an association list, mirroring JS object
indexing: the first entry with the key wins. -/
def alookup {α : Type} : List (String × α) → String → Option α
  | [], _ => none
  | (k0, v) :: rest, k => if k0 = k then some v else alookup rest k

/-- Assignment to a string key, mirroring JS object assignment: the first
entry with the key is replaced in place, and a missing key is appended. -/
def aset {α : Type} : List (String × α) → String → α → List (String × α)
  | [], k, v => [(k, v)]
  | (k0, v0) :: rest, k, v =>
    if k0 = k then (k0, v) :: rest else (k0, v0) :: aset rest k v

/-- Deletion of a string key, mirroring the JS delete operator on an
object whose keys are unique: every entry of the key is dropped. -/
def aerase {α : Type} : List (String × α) → String → List (String × α)
  | [], _ => []
  | (k0, v0) :: rest, k =>
    if k0 = k then aerase rest k else (k0, v0) :: aerase rest k

/-- Removal of the first occurrence of an element, mirroring the
indexOf plus splice idiom used on room rosters in server.js. -/
def removeFirst : List String → String → List String
  | [], _ => []
  | x :: xs, k => if x = k then xs else x :: removeFirst xs k

/-- PlayerState as stored in the global players table of server.js. -/
structure PlayerState where
  id : String
  name : String
  x : Int
  y : Int
  health : Int
  direction : String
  animation : String
  room : String
  isAttacking : Bool
  attackDirection : Option String
  lastUpdated : Nat
deriving Repr, DecidableEq

/-- Enemy payload as built by MultiplayerService.syncEnemies and stored
in a room enemy table.  The id is optional because server.js checks
enemyData.id before keying the table by it. -/
structure EnemyData where
  id : Option String
  etype : String
  x : Int
  y : Int
  health : Int
  maxHealth : Int
  isDead : Bool
  isMoving : Bool
  velocityX : Int
  velocityY : Int
  direction : String
deriving Repr, DecidableEq

/-- Item payload as built by MultiplayerService.processItemForSync and
stored in a room item table. -/
structure ItemData where
  id : Option String
  itype : String
  x : Int
  y : Int
  collected : Bool
  quality : String
  value : Int
  isOpen : Bool
deriving Repr, DecidableEq

/-- A Room of the relay registry: roster of socket ids, generation seed,
enemy table and item table (rooms[room] in server.js). -/
structure Room where
  players : List String
  seed : Nat
  enemies : List (String × EnemyData)
  items : List (String × ItemData)
deriving Repr, DecidableEq

/-- The whole relay state: the global players table and the room
registry of server.js. -/
structure ServerState where
  players : List (String × PlayerState)
  rooms : List (String × Room)
deriving Repr, DecidableEq

/-- Payload of the playerJoin message; absent fields fall back to the
defaults server.js applies with the JS or-else operator. -/
structure JoinData where
  name : Option String
  x : Option Int
  y : Option Int
  health : Option Int
  direction : Option String
  animation : Option String
  room : Option String
deriving Repr, DecidableEq

/-- Payload of the playerMovement message. -/
structure MovementData where
  x : Int
  y : Int
  direction : String
  animation : String
deriving Repr, DecidableEq

/-- Payload of the playerAttack message. -/
structure AttackData where
  direction : String
deriving Repr, DecidableEq

/-- Payload of the playerDamage message. -/
structure DamageData where
  health : Int
deriving Repr, DecidableEq

/-- Payload of the playerRespawn message. -/
structure RespawnData where
  x : Int
  y : Int
deriving Repr, DecidableEq

/-- Payload of the changeRoom message. -/
structure RoomChangeData where
  room : String
deriving Repr, DecidableEq

/-- Payload of the itemPickup message. -/
structure PickupData where
  id : String
deriving Repr, DecidableEq

/-- Client to relay messages.  syncItems and requestFullSync are part of
the wire protocol (MultiplayerService emits both) and are therefore
constructors here, even though server.js registers no handler for them. -/
inductive ClientMsg where
  | playerJoin (d : JoinData)
  | playerMovement (d : MovementData)
  | playerAttack (d : AttackData)
  | playerDamage (d : DamageData)
  | playerRespawn (d : RespawnData)
  | enemyUpdate (e : EnemyData)
  | syncEnemies (tbl : List (String × EnemyData))
  | itemUpdate (it : ItemData)
  | itemPickup (d : PickupData)
  | changeRoom (d : RoomChangeData)
  | syncItems (tbl : List (String × ItemData))
  | requestFullSync (room : String)
deriving Repr, DecidableEq

/-- Broadcast target of an emitted message: socket.emit reaches the one
socket, socket.to(room).emit reaches the members of the room except the
sender, io.to(room).emit reaches every member of the room. -/
inductive Target where
  | toSocket (sid : String)
  | roomExcept (room : String) (sid : String)
  | roomAll (room : String)
deriving Repr, DecidableEq

/-- Payloads carried by relay broadcasts. -/
inductive Payload where
  | playersTable (ps : List (String × PlayerState))
  | seedValue (n : Nat)
  | enemiesTable (es : List (String × EnemyData))
  | itemsTable (its : List (String × ItemData))
  | player (p : PlayerState)
  | attackInfo (id : String) (direction : String) (x y : Int)
  | healthInfo (id : String) (health : Int)
  | idInfo (id : String)
  | respawnInfo (id : String) (x y : Int) (health : Int)
  | enemy (e : EnemyData)
  | item (it : ItemData)
  | removedInfo (id : String) (playerId : String)
deriving Repr, DecidableEq

/-- One emitted message of the relay. -/
structure Emit where
  event : String
  target : Target
  payload : Payload
deriving Repr, DecidableEq

/-- Roster of a room, used to resolve broadcast recipients. -/
def roomMembers (s : ServerState) (room : String) : List String :=
  match alookup s.rooms room with
  | some r => r.players
  | none => []

/-- Recipients of an emitted message, resolved against a relay state. -/
def recipients (s : ServerState) (e : Emit) : List String :=
  match e.target with
  | .toSocket sid => [sid]
  | .roomExcept room sid => (roomMembers s room).filter (fun x => x ≠ sid)
  | .roomAll room => roomMembers s room

/-- A Room as freshly initialized by server.js: empty roster, a newly
rolled seed, empty enemy and item tables.  The roll of Math.random is
passed in as the freshSeed argument. -/
def freshRoom (freshSeed : Nat) : Room :=
  { players := [], seed := freshSeed, enemies := [], items := [] }

/-- The PlayerState built at the top of the playerJoin handler.  The JS
or-else defaults on absent fields become Option.getD; the default name
counts the players table before the new entry is inserted. -/
def mkJoinPlayer (s : ServerState) (sid : String) (d : JoinData) (now : Nat) : PlayerState :=
  { id := sid
    name := d.name.getD ("Player " ++ toString (s.players.length + 1))
    x := d.x.getD 100
    y := d.y.getD 100
    health := d.health.getD 100
    direction := d.direction.getD "down"
    animation := d.animation.getD "player_idle_down"
    room := d.room.getD "default"
    isAttacking := false
    attackDirection := none
    lastUpdated := now }

/-- Handler of playerJoin: register the player, create the room when it
is unseen, push the socket id onto the roster, reply with the global
players table, the room seed, the room enemy and item tables, and
announce the new player to the other room members. -/
def handlePlayerJoin (s : ServerState) (sid : String) (d : JoinData)
    (freshSeed : Nat) (now : Nat) : ServerState × List Emit :=
  let p := mkJoinPlayer s sid d now
  let players1 := aset s.players sid p
  let rooms1 :=
    match alookup s.rooms p.room with
    | some _ => s.rooms
    | none => aset s.rooms p.room (freshRoom freshSeed)
  let rooms2 :=
    match alookup rooms1 p.room with
    | some r => aset rooms1 p.room { r with players := r.players ++ [sid] }
    | none => rooms1
  let r := (alookup rooms2 p.room).getD (freshRoom 0)
  ({ players := players1, rooms := rooms2 },
   [ { event := "currentPlayers", target := .toSocket sid, payload := .playersTable players1 },
     { event := "dungeonSeed", target := .toSocket sid, payload := .seedValue r.seed },
     { event := "currentEnemies", target := .toSocket sid, payload := .enemiesTable r.enemies },
     { event := "currentItems", target := .toSocket sid, payload := .itemsTable r.items },
     { event := "newPlayer", target := .roomExcept p.room sid, payload := .player p } ])

/-- Handler of playerMovement: guard on the sender having a PlayerState,
overwrite position, direction and animation, stamp lastUpdated, and
broadcast the full updated PlayerState to the room except the sender. -/
def handlePlayerMovement (s : ServerState) (sid : String) (d : MovementData)
    (now : Nat) : ServerState × List Emit :=
  match alookup s.players sid with
  | none => (s, [])
  | some p =>
    let p1 := { p with x := d.x, y := d.y, direction := d.direction,
                       animation := d.animation, lastUpdated := now }
    ({ s with players := aset s.players sid p1 },
     [ { event := "playerMoved", target := .roomExcept p1.room sid, payload := .player p1 } ])

/-- Handler of playerAttack: set the attacking flag and direction and
broadcast a partial record to the room except the sender.  The delayed
setTimeout reset of the flag is outside this synchronous step. -/
def handlePlayerAttack (s : ServerState) (sid : String) (d : AttackData) :
    ServerState × List Emit :=
  match alookup s.players sid with
  | none => (s, [])
  | some p =>
    let p1 := { p with isAttacking := true, attackDirection := some d.direction }
    ({ s with players := aset s.players sid p1 },
     [ { event := "playerAttacked", target := .roomExcept p1.room sid,
         payload := .attackInfo sid d.direction p1.x p1.y } ])

/-- Handler of playerDamage: overwrite health, broadcast a health record
to every member of the room (io.to, sender included), and additionally
broadcast playerDied when health drops to zero or below. -/
def handlePlayerDamage (s : ServerState) (sid : String) (d : DamageData) :
    ServerState × List Emit :=
  match alookup s.players sid with
  | none => (s, [])
  | some p =>
    let p1 := { p with health := d.health }
    let base := [ { event := "playerHealthUpdate", target := Target.roomAll p1.room,
                    payload := Payload.healthInfo sid p1.health } ]
    let ems := if p1.health ≤ 0 then
        base ++ [ { event := "playerDied", target := Target.roomAll p1.room,
                    payload := Payload.idInfo sid } ]
      else base
    ({ s with players := aset s.players sid p1 }, ems)

/-- Handler of playerRespawn: overwrite position from the message, force
health back to 100, and broadcast a partial record to every member of
the room (io.to, sender included). -/
def handlePlayerRespawn (s : ServerState) (sid : String) (d : RespawnData) :
    ServerState × List Emit :=
  match alookup s.players sid with
  | none => (s, [])
  | some p =>
    let p1 := { p with x := d.x, y := d.y, health := 100 }
    ({ s with players := aset s.players sid p1 },
     [ { event := "playerRespawned", target := .roomAll p1.room,
         payload := .respawnInfo sid p1.x p1.y p1.health } ])

/-- Handler of enemyUpdate: merge one enemy into the room enemy table
and broadcast it to the room except the sender.  The JS spread merge
replaces every field because the wire record is total; a missing id
indexes the table at the stringified undefined key, as in JS. -/
def handleEnemyUpdate (s : ServerState) (sid : String) (e : EnemyData) :
    ServerState × List Emit :=
  match alookup s.players sid with
  | none => (s, [])
  | some p =>
    match alookup s.rooms p.room with
    | none => (s, [])
    | some r =>
      let key := e.id.getD "undefined"
      let r1 := { r with enemies := aset r.enemies key e }
      ({ s with rooms := aset s.rooms p.room r1 },
       [ { event := "enemyUpdated", target := .roomExcept p.room sid, payload := .enemy e } ])

/-- The wholesale rebuild performed by the syncEnemies handler: start
from an empty table and store each value of the supplied table under its
own id, skipping values without an id. -/
def idKeyedEnemies (tbl : List (String × EnemyData)) : List (String × EnemyData) :=
  tbl.foldl
    (fun acc kv =>
      match kv.2.id with
      | some i => aset acc i kv.2
      | none => acc)
    []

/-- Handler of syncEnemies: guard on sender registration and room
existence, replace the entire room enemy table with the id-keyed entries
of the supplied table, and rebroadcast it as currentEnemies to the room
except the sender. -/
def handleSyncEnemies (s : ServerState) (sid : String)
    (tbl : List (String × EnemyData)) : ServerState × List Emit :=
  match alookup s.players sid with
  | none => (s, [])
  | some p =>
    match alookup s.rooms p.room with
    | none => (s, [])
    | some r =>
      let newEnemies := idKeyedEnemies tbl
      let r1 := { r with enemies := newEnemies }
      ({ s with rooms := aset s.rooms p.room r1 },
       [ { event := "currentEnemies", target := .roomExcept p.room sid,
           payload := .enemiesTable newEnemies } ])

/-- Handler of itemUpdate: merge one item into the room item table and
broadcast it to every member of the room (io.to, sender included). -/
def handleItemUpdate (s : ServerState) (sid : String) (it : ItemData) :
    ServerState × List Emit :=
  match alookup s.players sid with
  | none => (s, [])
  | some p =>
    match alookup s.rooms p.room with
    | none => (s, [])
    | some r =>
      let key := it.id.getD "undefined"
      let r1 := { r with items := aset r.items key it }
      ({ s with rooms := aset s.rooms p.room r1 },
       [ { event := "itemUpdated", target := .roomAll p.room, payload := .item it } ])

/-- Handler of itemPickup: when the item exists in the room table,
delete it and broadcast itemRemoved to every member of the room. -/
def handleItemPickup (s : ServerState) (sid : String) (d : PickupData) :
    ServerState × List Emit :=
  match alookup s.players sid with
  | none => (s, [])
  | some p =>
    match alookup s.rooms p.room with
    | none => (s, [])
    | some r =>
      match alookup r.items d.id with
      | none => (s, [])
      | some _ =>
        let r1 := { r with items := aerase r.items d.id }
        ({ s with rooms := aset s.rooms p.room r1 },
         [ { event := "itemRemoved", target := .roomAll p.room,
             payload := .removedInfo d.id sid } ])

/-- Handler of changeRoom: splice the sender out of the old roster and
announce the departure (the emptied old room is NOT deleted), then join
the new room, creating it with a fresh seed when unseen, and reply with
seed, roster snapshot, enemy and item tables, announcing the mover to
the new room members. -/
def handleChangeRoom (s : ServerState) (sid : String) (d : RoomChangeData)
    (freshSeed : Nat) : ServerState × List Emit :=
  match alookup s.players sid with
  | none => (s, [])
  | some p =>
    let oldRoom := p.room
    let newRoom := d.room
    let leaveResult :
        List (String × Room) × List Emit :=
      match alookup s.rooms oldRoom with
      | some r =>
        (aset s.rooms oldRoom { r with players := removeFirst r.players sid },
         [ { event := "playerLeft", target := .roomExcept oldRoom sid,
             payload := .idInfo sid } ])
      | none => (s.rooms, [])
    let rooms1 := leaveResult.1
    let p1 := { p with room := newRoom }
    let players1 := aset s.players sid p1
    let rooms2 :=
      match alookup rooms1 newRoom with
      | some _ => rooms1
      | none => aset rooms1 newRoom (freshRoom freshSeed)
    let rooms3 :=
      match alookup rooms2 newRoom with
      | some r => aset rooms2 newRoom { r with players := r.players ++ [sid] }
      | none => rooms2
    let nr := (alookup rooms3 newRoom).getD (freshRoom 0)
    let roomPlayers :=
      nr.players.filterMap (fun pid => (alookup players1 pid).map (fun q => (pid, q)))
    ({ players := players1, rooms := rooms3 },
     leaveResult.2 ++
     [ { event := "dungeonSeed", target := .toSocket sid, payload := .seedValue nr.seed },
       { event := "roomPlayers", target := .toSocket sid, payload := .playersTable roomPlayers },
       { event := "currentEnemies", target := .toSocket sid, payload := .enemiesTable nr.enemies },
       { event := "currentItems", target := .toSocket sid, payload := .itemsTable nr.items },
       { event := "newPlayer", target := .roomExcept newRoom sid, payload := .player p1 } ])

/-- Handler of the transport disconnect event: splice the player out of
the roster of their room, delete the room when the roster becomes empty,
announce the departure, and delete the PlayerState. -/
def handleDisconnect (s : ServerState) (sid : String) : ServerState × List Emit :=
  match alookup s.players sid with
  | none => (s, [])
  | some p =>
    let room := p.room
    let rooms1 :=
      match alookup s.rooms room with
      | some r =>
        let r1 := { r with players := removeFirst r.players sid }
        if r1.players = [] then aerase s.rooms room else aset s.rooms room r1
      | none => s.rooms
    ({ players := aerase s.players sid, rooms := rooms1 },
     [ { event := "playerDisconnected", target := .roomAll room, payload := .idInfo sid } ])

/-- One iteration of the inactivity sweep for one player id: when the
player exists and has not updated within five minutes, perform the same
removal as a disconnect. -/
def reapOne (s : ServerState) (pid : String) (now : Nat) : ServerState × List Emit :=
  match alookup s.players pid with
  | none => (s, [])
  | some p =>
    if p.lastUpdated + 5 * 60 * 1000 < now then
      let room := p.room
      let rooms1 :=
        match alookup s.rooms room with
        | some r =>
          let r1 := { r with players := removeFirst r.players pid }
          if r1.players = [] then aerase s.rooms room else aset s.rooms room r1
        | none => s.rooms
      ({ players := aerase s.players pid, rooms := rooms1 },
       [ { event := "playerDisconnected", target := .roomAll room, payload := .idInfo pid } ])
    else (s, [])

/-- The periodic inactivity reaper of server.js: sweep over a snapshot
of the player ids and evict each player stale for over five minutes. -/
def reapInactive (s : ServerState) (now : Nat) : ServerState × List Emit :=
  (s.players.map Prod.fst).foldl
    (fun acc pid =>
      let step := reapOne acc.1 pid now
      (step.1, acc.2 ++ step.2))
    (s, [])

/-- Dispatch of one inbound client message, mirroring the socket.io
event registration in server.js: syncItems and requestFullSync have no
registered handler there, so those messages are dropped unanswered. -/
def serverStep (s : ServerState) (sid : String) (m : ClientMsg)
    (freshSeed : Nat) (now : Nat) : ServerState × List Emit :=
  match m with
  | .playerJoin d => handlePlayerJoin s sid d freshSeed now
  | .playerMovement d => handlePlayerMovement s sid d now
  | .playerAttack d => handlePlayerAttack s sid d
  | .playerDamage d => handlePlayerDamage s sid d
  | .playerRespawn d => handlePlayerRespawn s sid d
  | .enemyUpdate e => handleEnemyUpdate s sid e
  | .syncEnemies tbl => handleSyncEnemies s sid tbl
  | .itemUpdate it => handleItemUpdate s sid it
  | .itemPickup d => handleItemPickup s sid d
  | .changeRoom d => handleChangeRoom s sid d freshSeed
  | .syncItems _ => (s, [])
  | .requestFullSync _ => (s, [])

/-- One operation of the relay: an inbound client message, a transport
disconnect, or a pass of the inactivity reaper. -/
inductive RelayOp where
  | msg (sid : String) (m : ClientMsg) (freshSeed : Nat) (now : Nat)
  | disconnect (sid : String)
  | reap (now : Nat)
deriving Repr, DecidableEq

/-- One step of the relay under any operation. -/
def relayStep (s : ServerState) : RelayOp → ServerState × List Emit
  | .msg sid m freshSeed now => serverStep s sid m freshSeed now
  | .disconnect sid => handleDisconnect s sid
  | .reap now => reapInactive s now

/-- Run of a sequence of relay operations from a state, discarding
broadcasts. -/
def runRelay (s : ServerState) : List RelayOp → ServerState
  | [] => s
  | op :: rest => runRelay (relayStep s op).1 rest

/-- The relay initial state: no players, no rooms. -/
def initServer : ServerState := { players := [], rooms := [] }

/-! ## Client connection resilience (MultiplayerService) -/

/-- The connectionState object of MultiplayerService. -/
structure ConnectionState where
  connected : Bool
  hasError : Bool
  reconnecting : Bool
  playerId : Option String
  reconnectAttempts : Nat
  maxReconnectAttempts : Nat
  offlineMode : Bool
deriving Repr, DecidableEq

/-- The slice of MultiplayerService state the resilience logic touches:
the connection state, the pending reconnect setTimeout delay, and the
offline-mode setInterval period. -/
structure ServiceState where
  conn : ConnectionState
  reconnectTimerDelay : Option Nat
  offlineTimerPeriod : Option Nat
deriving Repr, DecidableEq

/-- The connectionState as initialized in the constructor. -/
def initConnectionState : ConnectionState :=
  { connected := false, hasError := false, reconnecting := false,
    playerId := none, reconnectAttempts := 0,
    maxReconnectAttempts := 10, offlineMode := false }

/-- Observable side effects of the client resilience logic: a status
toast shown with a severity, or an internal event dispatched through
triggerEvent. -/
inductive ClientEffect where
  | statusShown (kind : String)
  | eventTriggered (name : String)
deriving Repr, DecidableEq

/-- The delay formula of handleTransportError, taking the attempt
counter value after its increment: one second doubled per attempt,
capped at ten seconds. -/
def reconnectDelay (attemptsAfter : Nat) : Nat :=
  min (1000 * 2 ^ (attemptsAfter - 1)) 10000

/-- handleTransportError of MultiplayerService: cancel a pending retry,
force maxReconnectAttempts to 15, and either schedule the next retry
under exponential backoff or, once the counter has reached the maximum,
show a terminal error and dispatch the offlineMode event. -/
def handleTransportError (st : ServiceState) : ServiceState × List ClientEffect :=
  let conn0 := { st.conn with maxReconnectAttempts := 15 }
  if conn0.reconnectAttempts < conn0.maxReconnectAttempts then
    let n := conn0.reconnectAttempts + 1
    ({ st with conn := { conn0 with reconnectAttempts := n },
               reconnectTimerDelay := some (reconnectDelay n) },
     [ .statusShown "warning", .eventTriggered "connectionStatus" ])
  else
    ({ st with conn := conn0, reconnectTimerDelay := none },
     [ .statusShown "error", .eventTriggered "connectionStatus",
       .eventTriggered "offlineMode" ])

/-- The connect handler registered in setupConnectionHandlers: mark the
link up, clear error and reconnecting flags, cancel the pending retry
timer, and reset the attempt counter to zero. -/
def onConnect (st : ServiceState) : ServiceState :=
  { st with
      conn := { st.conn with connected := true, reconnecting := false,
                             hasError := false, reconnectAttempts := 0 },
      reconnectTimerDelay := none }

/-- enableOfflineMode of MultiplayerService: set the offline flag, drop
the pending retry, fabricate a local session identity from the clock,
schedule the 30 second background probe, and announce the switch. -/
def enableOfflineMode (st : ServiceState) (now : Nat) : ServiceState × List ClientEffect :=
  ({ st with
       conn := { st.conn with offlineMode := true,
                              playerId := some ("offline-" ++ toString now) },
       reconnectTimerDelay := none,
       offlineTimerPeriod := some 30000 },
   [ .statusShown "warning", .eventTriggered "connectionStatus",
     .eventTriggered "offlineModeEnabled" ])

/-- Every event name the client code base ever registers a handler for
on the MultiplayerService event bus, collected from GameScene,
RemotePlayerManager and UIScene.  The offlineMode event dispatched by
handleTransportError is not among them. -/
def registeredClientEvents : List String :=
  [ "connect", "disconnect", "dungeonSeed",
    "enemiesUpdated", "enemyUpdated", "itemsUpdated", "itemUpdated", "itemRemoved",
    "offlineModeEnabled", "offlineModeDisabled",
    "connectionStatus", "reconnecting", "reconnect", "error" ]

/-! ## Client scene reconciliation (GameScene) -/

/-- The slice of GameScene state that seed handling touches: the stored
seed and a count of how many times the level was regenerated. -/
structure SceneGenState where
  currentSeed : Option Nat
  generationCount : Nat
deriving Repr, DecidableEq

/-- handleDungeonSeed of GameScene: skip regeneration when the scene
already holds this seed, otherwise store it, clear the dungeon and
regenerate from it. -/
def handleDungeonSeed (st : SceneGenState) (seed : Nat) : SceneGenState :=
  if st.currentSeed = some seed then st
  else { currentSeed := some seed, generationCount := st.generationCount + 1 }

/-- A local enemy instance of the scene, as far as reconciliation is
concerned.  The id field models the JS id-or-enemyId pair, which the
code always assigns together. -/
structure ClientEnemy where
  id : Option String
  x : Int
  y : Int
  health : Int
  maxHealth : Int
  isDead : Bool
  playedDeathAnim : Bool
  serverControlled : Bool
deriving Repr, DecidableEq

/-- A local item instance of the scene.  The id field models the JS
id-or-itemId pair; fields absent on some sprite kinds are optional. -/
structure ClientItem where
  id : Option String
  itype : String
  x : Int
  y : Int
  collected : Bool
  isOpen : Option Bool
  quality : Option String
  value : Option Int
deriving Repr, DecidableEq

/-- Enemy.updateFromServer restricted to list-visible state: position,
health, the movement flag and the death flag are overwritten from the
wire record.  Position lands on the wire value directly or at the end
of the smoothing tween, and stays put within the three pixel dead
band. -/
def applyEnemyData (e : ClientEnemy) (d : EnemyData) : ClientEnemy :=
  let nx := if 3 < (e.x - d.x).natAbs then d.x else e.x
  let ny := if 3 < (e.y - d.y).natAbs then d.y else e.y
  { e with x := nx, y := ny, health := d.health, isDead := d.isDead,
           serverControlled := true }

/-- A fresh local enemy built by handleEnemiesUpdated for an unknown id
observed in a server table. -/
def createEnemyFrom (key : String) (d : EnemyData) : ClientEnemy :=
  { id := some key, x := d.x, y := d.y, health := d.health,
    maxHealth := d.maxHealth, isDead := d.isDead,
    playedDeathAnim := false, serverControlled := true }

/-- Update of the first local enemy carrying the key.  When the wire
record carries the death flag and the death animation has not run yet,
updateFromServer calls die, which splices the enemy out of the scene
list at once (only the sprite fade-out is deferred). -/
def updateEnemiesWith (key : String) (d : EnemyData) :
    List ClientEnemy → List ClientEnemy
  | [] => []
  | e :: rest =>
    if e.id = some key then
      if d.isDead && !e.playedDeathAnim then rest
      else applyEnemyData e d :: rest
    else e :: updateEnemiesWith key d rest

/-- GameScene.handleEnemiesUpdated on a replica: walk the keys of the
incoming table, updating known enemies and instantiating unknown ones,
then drop every local enemy whose id is absent from the table.  The
host and non-multiplayer guards leave the list untouched. -/
def handleEnemiesUpdated (isMultiplayer : Bool) (isHost : Bool)
    (es : List ClientEnemy) (incoming : List (String × EnemyData)) :
    List ClientEnemy :=
  if !isMultiplayer then es
  else if isHost then es
  else
    let walked := incoming.foldl
      (fun acc kv =>
        if acc.any (fun e => e.id = some kv.1) then updateEnemiesWith kv.1 kv.2 acc
        else acc ++ [createEnemyFrom kv.1 kv.2])
      es
    walked.filter
      (fun e =>
        match e.id with
        | none => true
        | some i => (incoming.map Prod.fst).contains i)

/-- A fresh local item built by handleItemsUpdated for an unknown,
uncollected id: the switch creates chest, coin and health potion
sprites and silently creates nothing for other types. -/
def createItemFrom (key : String) (d : ItemData) : Option ClientItem :=
  if d.itype = "chest" then
    some { id := some key, itype := "chest", x := d.x, y := d.y,
           collected := false, isOpen := some false,
           quality := some d.quality, value := none }
  else if d.itype = "coin" then
    some { id := some key, itype := "coin", x := d.x, y := d.y,
           collected := false, isOpen := none, quality := none,
           value := some d.value }
  else if d.itype = "health_potion" then
    some { id := some key, itype := "health_potion", x := d.x, y := d.y,
           collected := false, isOpen := none, quality := none, value := none }
  else none

/-- Update of the first local item carrying the key: position follows
the wire record, and a collected wire record destroys a still
uncollected local instance at once. -/
def updateItemsWith (key : String) (d : ItemData) :
    List ClientItem → List ClientItem
  | [] => []
  | it :: rest =>
    if it.id = some key then
      if d.collected && !it.collected then rest
      else { it with x := d.x, y := d.y } :: rest
    else it :: updateItemsWith key d rest

/-- GameScene.handleItemsUpdated on a replica: walk the keys of the
incoming table, updating known items and instantiating unknown
uncollected ones, then drop every local item whose id is absent from the
table.  The host and non-multiplayer guards leave the list untouched. -/
def handleItemsUpdated (isMultiplayer : Bool) (isHost : Bool)
    (its : List ClientItem) (incoming : List (String × ItemData)) :
    List ClientItem :=
  if !isMultiplayer then its
  else if isHost then its
  else
    let walked := incoming.foldl
      (fun acc kv =>
        if acc.any (fun it => it.id = some kv.1) then updateItemsWith kv.1 kv.2 acc
        else if kv.2.collected then acc
        else
          match createItemFrom kv.1 kv.2 with
          | some ni => acc ++ [ni]
          | none => acc)
      its
    walked.filter
      (fun it =>
        match it.id with
        | none => true
        | some i => (incoming.map Prod.fst).contains i)

/-! ## Seed stability of the room registry -/

/-- Seed preservation between two room tables: any room id present in
both carries the same seed afterwards. -/
def SeedPres (l l' : List (String × Room)) : Prop :=
  ∀ r room room', alookup l r = some room → alookup l' r = some room' →
    room'.seed = room.seed

/-- Key monotonicity between two room tables: no new room id appears. -/
def KeysMono (l l' : List (String × Room)) : Prop :=
  ∀ r, alookup l r = none → alookup l' r = none

/-! ## Concrete fixtures used by witnesses and counterexamples -/

/-- A concrete registered player in a given room. -/
def pFix (sid room : String) : PlayerState :=
  { id := sid, name := "n", x := 0, y := 0, health := 100,
    direction := "down", animation := "player_idle_down", room := room,
    isAttacking := false, attackDirection := none, lastUpdated := 0 }

/-- A concrete room with two members. -/
def roomFix : Room :=
  { players := ["a", "b"], seed := 42, enemies := [], items := [] }

/-- A concrete relay state: players a and b joined to room default. -/
def sFix : ServerState :=
  { players := [("a", pFix "a" "default"), ("b", pFix "b" "default")],
    rooms := [("default", roomFix)] }

/-- A concrete item payload. -/
def itemFix : ItemData :=
  { id := some "i1", itype := "coin", x := 5, y := 6, collected := false,
    quality := "normal", value := 1, isOpen := false }

/-- A concrete enemy payload. -/
def enemyFix : EnemyData :=
  { id := some "e1", etype := "skeleton", x := 1, y := 2, health := 50,
    maxHealth := 100, isDead := false, isMoving := false,
    velocityX := 0, velocityY := 0, direction := "down" }

/-- The nine game messages of C10: every handler of these in server.js
is guarded by a check that the sender has a registered PlayerState. -/
def isGuardedGameMsg (m : ClientMsg) : Bool :=
  match m with
  | .playerMovement _ => true
  | .playerAttack _ => true
  | .playerDamage _ => true
  | .playerRespawn _ => true
  | .enemyUpdate _ => true
  | .syncEnemies _ => true
  | .itemUpdate _ => true
  | .itemPickup _ => true
  | .changeRoom _ => true
  | _ => false

/-- A concrete service state whose attempt counter has reached the
maximum of 15 failed attempts. -/
def stMaxAttempts : ServiceState :=
  { conn := { initConnectionState with reconnectAttempts := 15 },
    reconnectTimerDelay := none, offlineTimerPeriod := none }

/-- The item-table rebuild the spec describes for syncItems, written
from the spec wording by analogy with the syncEnemies handler: store
each value of the supplied table under its own id.  server.js has no
syncItems handler, so this definition only serves to state claim C1. -/
def idKeyedItems (tbl : List (String × ItemData)) : List (String × ItemData) :=
  tbl.foldl
    (fun acc kv =>
      match kv.2.id with
      | some i => aset acc i kv.2
      | none => acc)
    []

/-- Claim C1 as stated: for a joined sender, both syncEnemies and
syncItems wholesale-overwrite the respective room table with the
id-keyed entries of the supplied table and rebroadcast it to the room
except the sender. -/
def hostWholesaleSyncClaim : Prop :=
  ∀ (s : ServerState) (sid : String) (p : PlayerState) (room : Room),
    alookup s.players sid = some p →
    alookup s.rooms p.room = some room →
    (∀ (tbl : List (String × EnemyData)) (fresh now : Nat),
      (alookup (serverStep s sid (.syncEnemies tbl) fresh now).1.rooms p.room).map
          Room.enemies = some (idKeyedEnemies tbl) ∧
      (serverStep s sid (.syncEnemies tbl) fresh now).2 =
        [ { event := "currentEnemies", target := .roomExcept p.room sid,
            payload := .enemiesTable (idKeyedEnemies tbl) } ]) ∧
    (∀ (tbl : List (String × ItemData)) (fresh now : Nat),
      (alookup (serverStep s sid (.syncItems tbl) fresh now).1.rooms p.room).map
          Room.items = some (idKeyedItems tbl) ∧
      (serverStep s sid (.syncItems tbl) fresh now).2 =
        [ { event := "currentItems", target := .roomExcept p.room sid,
            payload := .itemsTable (idKeyedItems tbl) } ])

/-- Claim C3 as stated, in its room-scoping aspect: the currentPlayers
reply of a playerJoin contains only players of the joined room. -/
def joinRepliesRoomScopedClaim : Prop :=
  ∀ (s : ServerState) (sid : String) (d : JoinData) (fresh now : Nat),
    ∀ em ∈ (serverStep s sid (.playerJoin d) fresh now).2,
      em.event = "currentPlayers" →
      ∀ ps, em.payload = .playersTable ps →
        ∀ q ∈ ps, q.2.room = d.room.getD "default"

/-- A concrete relay state with one player z joined to room other,
used to refute the room scoping of the join reply. -/
def sC3 : ServerState :=
  { players := [("z", pFix "z" "other")],
    rooms := [("other", { players := ["z"], seed := 1, enemies := [], items := [] })] }

/-- The join payload of the C3 counterexample, with every field left to
its default (so the joined room is default). -/
def jdC3 : JoinData :=
  { name := none, x := none, y := none, health := none,
    direction := none, animation := none, room := none }

/-- The global players table the relay actually sends back to the C3
joiner: the pre-existing player z of room other plus the joiner. -/
def tblC3 : List (String × PlayerState) :=
  aset sC3.players "a" (mkJoinPlayer sC3 "a" jdC3 0)

/-- The per-message requirement of claim C4: after the handler runs,
the sender PlayerState carries lastUpdated = now, and every broadcast
carries the full updated PlayerState and does not reach the sender. -/
def StampAndFullBroadcast (res : ServerState × List Emit) (sid : String)
    (now : Nat) : Prop :=
  ∀ q, alookup res.1.players sid = some q →
    q.lastUpdated = now ∧
    ∀ em ∈ res.2, em.payload = .player q ∧ sid ∉ recipients res.1 em

/-- Claim C4 as stated: movement, attack, damage and respawn messages
from a joined client all stamp the timestamp and re-broadcast the full
updated PlayerState to the other room members, never to the sender. -/
def updateBroadcastClaim : Prop :=
  ∀ (s : ServerState) (sid : String) (now : Nat) (p : PlayerState),
    alookup s.players sid = some p →
    (∀ d : MovementData,
       StampAndFullBroadcast (serverStep s sid (.playerMovement d) 0 now) sid now) ∧
    (∀ d : AttackData,
       StampAndFullBroadcast (serverStep s sid (.playerAttack d) 0 now) sid now) ∧
    (∀ d : DamageData,
       StampAndFullBroadcast (serverStep s sid (.playerDamage d) 0 now) sid now) ∧
    (∀ d : RespawnData,
       StampAndFullBroadcast (serverStep s sid (.playerRespawn d) 0 now) sid now)

/-- Claim C6 as stated: a replica removes local items absent from the
incoming table, but does NOT remove an enemy merely because its id is
absent (an enemy not yet flagged dead is expected to survive, its
removal being driven by isDead plus the death animation). -/
def replicaPruneClaim : Prop :=
  (∀ (its : List ClientItem) (incoming : List (String × ItemData))
     (it : ClientItem) (i : String),
     it ∈ handleItemsUpdated true false its incoming → it.id = some i →
     (incoming.map Prod.fst).contains i = true) ∧
  (∀ (es : List ClientEnemy) (incoming : List (String × EnemyData))
     (e : ClientEnemy) (i : String),
     e ∈ es → e.id = some i → (incoming.map Prod.fst).contains i = false →
     e.isDead = false →
     e ∈ handleEnemiesUpdated true false es incoming)

/-- A concrete live local enemy of a replica scene. -/
def cEnemyFix : ClientEnemy :=
  { id := some "e1", x := 0, y := 0, health := 100, maxHealth := 100,
    isDead := false, playedDeathAnim := false, serverControlled := false }

/-- No entry of a room table has an empty roster. -/
def NR (l : List (String × Room)) : Prop := ∀ kv ∈ l, kv.2.players ≠ []

/-- Whether a relay operation is a changeRoom message. -/
def isChangeRoomOp : RelayOp → Bool
  | .msg _ (.changeRoom _) _ _ => true
  | _ => false

/-- The operations claim C5 quantifies over: join, leave (disconnect),
changeRoom, and the reaper sweep. -/
def isLifecycleOp : RelayOp → Bool
  | .msg _ (.playerJoin _) _ _ => true
  | .msg _ (.changeRoom _) _ _ => true
  | .disconnect _ => true
  | .reap _ => true
  | _ => false

/-- Claim C5 as stated: after any sequence of join, disconnect,
changeRoom and reaper operations from the empty relay, no room with an
empty roster exists. -/
def roomLifecycleClaim : Prop :=
  ∀ ops : List RelayOp, (∀ op ∈ ops, isLifecycleOp op = true) →
    ∀ kv ∈ (runRelay initServer ops).rooms, kv.2.players ≠ []

/-- The two-operation C5 counterexample: player a joins the fresh room
a, then changes to room b. -/
def opsC5 : List RelayOp :=
  [ .msg "a" (.playerJoin
      { name := none, x := none, y := none, health := none,
        direction := none, animation := none, room := some "a" }) 1 0,
    .msg "a" (.changeRoom { room := "b" }) 2 0 ]


/-! ## Association list lemmas -/

theorem alookup_aset_self {α : Type} (l : List (String × α)) (k : String) (v : α) :
    alookup (aset l k v) k = some v := by
  induction l with
  | nil => simp [aset, alookup]
  | cons hd tl ih =>
    by_cases h : hd.1 = k
    · simp [aset, alookup, h]
    · simp [aset, alookup, h, ih]

theorem alookup_aset_ne {α : Type} (l : List (String × α)) (k : String) (v : α)
    (k' : String) (h : k' ≠ k) : alookup (aset l k v) k' = alookup l k' := by
  have hkk : ¬(k = k') := fun hx => h hx.symm
  induction l with
  | nil => simp [aset, alookup, hkk]
  | cons hd tl ih =>
    rcases hd with ⟨a, b⟩
    by_cases hh : a = k
    · subst hh
      simp [aset, alookup, hkk]
    · by_cases hk : a = k'
      · simp [aset, alookup, hh, hk, h]
      · simp [aset, alookup, hh, hk, ih]

theorem alookup_aerase_self {α : Type} (l : List (String × α)) (k : String) :
    alookup (aerase l k) k = none := by
  induction l with
  | nil => simp [aerase, alookup]
  | cons hd tl ih =>
    rcases hd with ⟨a, b⟩
    by_cases h : a = k
    · simpa [aerase, alookup, h] using ih
    · simpa [aerase, alookup, h] using ih

theorem alookup_aerase_ne {α : Type} (l : List (String × α)) (k k' : String)
    (h : k' ≠ k) : alookup (aerase l k) k' = alookup l k' := by
  induction l with
  | nil => simp [aerase, alookup]
  | cons hd tl ih =>
    rcases hd with ⟨a, b⟩
    by_cases hh : a = k
    · subst hh
      have hk : ¬(a = k') := fun hx => h (hx ▸ rfl)
      simp [aerase, alookup, hk, ih]
    · by_cases hk : a = k'
      · simp [aerase, alookup, hh, hk, h]
      · simp [aerase, alookup, hh, hk, ih]

theorem mem_aset {α : Type} (l : List (String × α)) (k : String) (v : α)
    (kv : String × α) (h : kv ∈ aset l k v) : kv = (k, v) ∨ kv ∈ l := by
  induction l with
  | nil => simpa [aset] using h
  | cons hd tl ih =>
    rcases hd with ⟨a, b⟩
    by_cases hh : a = k
    · subst hh
      simp [aset] at h
      rcases h with h | h
      · exact Or.inl h
      · exact Or.inr (List.mem_cons_of_mem _ h)
    · simp [aset, hh] at h
      rcases h with h | h
      · exact Or.inr (by simp [h])
      · rcases ih h with h1 | h1
        · exact Or.inl h1
        · exact Or.inr (List.mem_cons_of_mem _ h1)

theorem alookup_mem {α : Type} (l : List (String × α)) (k : String) (v : α)
    (h : alookup l k = some v) : (k, v) ∈ l := by
  induction l with
  | nil => simp [alookup] at h
  | cons hd tl ih =>
    rcases hd with ⟨a, b⟩
    by_cases hh : a = k
    · subst hh
      simp [alookup] at h
      subst h
      exact List.mem_cons_self _ _
    · simp [alookup, hh] at h
      exact List.mem_cons_of_mem _ (ih h)

theorem mem_aerase {α : Type} (l : List (String × α)) (k : String)
    (kv : String × α) (h : kv ∈ aerase l k) : kv ∈ l := by
  induction l with
  | nil => simp [aerase] at h
  | cons hd tl ih =>
    rcases hd with ⟨a, b⟩
    by_cases hh : a = k
    · simp [aerase, hh] at h
      exact List.mem_cons_of_mem _ (ih h)
    · simp [aerase, hh] at h
      rcases h with h | h
      · simp [h]
      · exact List.mem_cons_of_mem _ (ih h)

theorem seedPres_refl (l : List (String × Room)) : SeedPres l l := by
  intro r room room' h h'
  rw [h] at h'
  injection h' with h''
  rw [h'']

theorem seedPres_aset_update (l : List (String × Room)) (k : String)
    (rm rm' : Room) (hl : alookup l k = some rm) (hseed : rm'.seed = rm.seed) :
    SeedPres l (aset l k rm') := by
  intro r room room' h h'
  by_cases hr : r = k
  · subst hr
    rw [alookup_aset_self] at h'
    injection h' with h1
    rw [h] at hl
    injection hl with h2
    rw [← h1, hseed, h2]
  · rw [alookup_aset_ne _ _ _ _ hr] at h'
    rw [h] at h'
    injection h' with h1
    rw [h1]

theorem seedPres_aset_fresh (l : List (String × Room)) (k : String)
    (rm' : Room) (hl : alookup l k = none) : SeedPres l (aset l k rm') := by
  intro r room room' h h'
  by_cases hr : r = k
  · subst hr
    rw [h] at hl
    exact absurd hl (by simp)
  · rw [alookup_aset_ne _ _ _ _ hr] at h'
    rw [h] at h'
    injection h' with h1
    rw [h1]

theorem seedPres_aerase (l : List (String × Room)) (k : String) :
    SeedPres l (aerase l k) := by
  intro r room room' h h'
  by_cases hr : r = k
  · subst hr
    rw [alookup_aerase_self] at h'
    exact absurd h' (by simp)
  · rw [alookup_aerase_ne _ _ _ hr] at h'
    rw [h] at h'
    injection h' with h1
    rw [h1]

theorem seedPres_trans_of_keysMono (l1 l2 l3 : List (String × Room))
    (h12 : SeedPres l1 l2) (h23 : SeedPres l2 l3) (k23 : KeysMono l2 l3) :
    SeedPres l1 l3 := by
  intro r room room' h h'
  cases hm : alookup l2 r with
  | some mid =>
    rw [h23 r mid room' hm h']
    exact h12 r room mid h hm
  | none =>
    rw [k23 r hm] at h'
    exact absurd h' (by simp)

theorem keysMono_refl (l : List (String × Room)) : KeysMono l l := fun _ h => h

theorem keysMono_trans (l1 l2 l3 : List (String × Room))
    (h12 : KeysMono l1 l2) (h23 : KeysMono l2 l3) : KeysMono l1 l3 :=
  fun r h => h23 r (h12 r h)

theorem keysMono_aset_update (l : List (String × Room)) (k : String)
    (rm rm' : Room) (hl : alookup l k = some rm) : KeysMono l (aset l k rm') := by
  intro r h
  by_cases hr : r = k
  · subst hr
    rw [h] at hl
    exact absurd hl (by simp)
  · rw [alookup_aset_ne _ _ _ _ hr]
    exact h

theorem keysMono_aerase (l : List (String × Room)) (k : String) :
    KeysMono l (aerase l k) := by
  intro r h
  by_cases hr : r = k
  · rw [hr]
    exact alookup_aerase_self l k
  · rw [alookup_aerase_ne _ _ _ hr]
    exact h

theorem aset_aset {α : Type} (l : List (String × α)) (k : String) (v w : α) :
    aset (aset l k v) k w = aset l k w := by
  induction l with
  | nil => simp [aset]
  | cons hd tl ih =>
    rcases hd with ⟨a, b⟩
    by_cases h : a = k
    · simp [aset, h]
    · simp [aset, h, ih]

theorem keysPreserved_aset_update {α : Type} (l : List (String × α))
    (k : String) (rm v : α) (hl : alookup l k = some rm) :
    ∀ r w, alookup l r = some w → ∃ mid, alookup (aset l k v) r = some mid := by
  intro r w h
  by_cases hr : r = k
  · subst hr
    exact ⟨v, alookup_aset_self _ _ _⟩
  · rw [alookup_aset_ne _ _ _ _ hr]
    exact ⟨w, h⟩

theorem seedPres_trans_of_keysPreserved (l1 l2 l3 : List (String × Room))
    (h12 : SeedPres l1 l2) (h23 : SeedPres l2 l3)
    (kp : ∀ r room, alookup l1 r = some room → ∃ mid, alookup l2 r = some mid) :
    SeedPres l1 l3 := by
  intro r room room' h h'
  obtain ⟨mid, hm⟩ := kp r room h
  rw [h23 r mid room' hm h']
  exact h12 r room mid h hm

theorem seedPres_handlePlayerJoin (s : ServerState) (sid : String)
    (d : JoinData) (fresh now : Nat) :
    SeedPres s.rooms (handlePlayerJoin s sid d fresh now).1.rooms := by
  cases hx : alookup s.rooms (mkJoinPlayer s sid d now).room with
  | some r0 =>
    simp only [handlePlayerJoin, hx]
    exact seedPres_aset_update _ _ _ _ hx rfl
  | none =>
    simp only [handlePlayerJoin, hx, alookup_aset_self]
    exact seedPres_trans_of_keysMono _ _ _
      (seedPres_aset_fresh _ _ _ hx)
      (seedPres_aset_update _ _ _ _ (alookup_aset_self _ _ _) rfl)
      (keysMono_aset_update _ _ _ _ (alookup_aset_self _ _ _))

theorem seedPres_handlePlayerMovement (s : ServerState) (sid : String)
    (d : MovementData) (now : Nat) :
    SeedPres s.rooms (handlePlayerMovement s sid d now).1.rooms := by
  cases hp : alookup s.players sid <;>
    simp only [handlePlayerMovement, hp] <;> exact seedPres_refl _

theorem seedPres_handlePlayerAttack (s : ServerState) (sid : String)
    (d : AttackData) : SeedPres s.rooms (handlePlayerAttack s sid d).1.rooms := by
  cases hp : alookup s.players sid <;>
    simp only [handlePlayerAttack, hp] <;> exact seedPres_refl _

theorem seedPres_handlePlayerDamage (s : ServerState) (sid : String)
    (d : DamageData) : SeedPres s.rooms (handlePlayerDamage s sid d).1.rooms := by
  cases hp : alookup s.players sid <;>
    simp only [handlePlayerDamage, hp] <;> exact seedPres_refl _

theorem seedPres_handlePlayerRespawn (s : ServerState) (sid : String)
    (d : RespawnData) : SeedPres s.rooms (handlePlayerRespawn s sid d).1.rooms := by
  cases hp : alookup s.players sid <;>
    simp only [handlePlayerRespawn, hp] <;> exact seedPres_refl _

theorem seedPres_handleEnemyUpdate (s : ServerState) (sid : String)
    (e : EnemyData) : SeedPres s.rooms (handleEnemyUpdate s sid e).1.rooms := by
  cases hp : alookup s.players sid with
  | none => simp only [handleEnemyUpdate, hp]; exact seedPres_refl _
  | some p =>
    cases hr : alookup s.rooms p.room with
    | none => simp only [handleEnemyUpdate, hp, hr]; exact seedPres_refl _
    | some r =>
      simp only [handleEnemyUpdate, hp, hr]
      exact seedPres_aset_update _ _ _ _ hr rfl

theorem seedPres_handleSyncEnemies (s : ServerState) (sid : String)
    (tbl : List (String × EnemyData)) :
    SeedPres s.rooms (handleSyncEnemies s sid tbl).1.rooms := by
  cases hp : alookup s.players sid with
  | none => simp only [handleSyncEnemies, hp]; exact seedPres_refl _
  | some p =>
    cases hr : alookup s.rooms p.room with
    | none => simp only [handleSyncEnemies, hp, hr]; exact seedPres_refl _
    | some r =>
      simp only [handleSyncEnemies, hp, hr]
      exact seedPres_aset_update _ _ _ _ hr rfl

theorem seedPres_handleItemUpdate (s : ServerState) (sid : String)
    (it : ItemData) : SeedPres s.rooms (handleItemUpdate s sid it).1.rooms := by
  cases hp : alookup s.players sid with
  | none => simp only [handleItemUpdate, hp]; exact seedPres_refl _
  | some p =>
    cases hr : alookup s.rooms p.room with
    | none => simp only [handleItemUpdate, hp, hr]; exact seedPres_refl _
    | some r =>
      simp only [handleItemUpdate, hp, hr]
      exact seedPres_aset_update _ _ _ _ hr rfl

theorem seedPres_handleItemPickup (s : ServerState) (sid : String)
    (d : PickupData) : SeedPres s.rooms (handleItemPickup s sid d).1.rooms := by
  cases hp : alookup s.players sid with
  | none => simp only [handleItemPickup, hp]; exact seedPres_refl _
  | some p =>
    cases hr : alookup s.rooms p.room with
    | none => simp only [handleItemPickup, hp, hr]; exact seedPres_refl _
    | some r =>
      cases hi : alookup r.items d.id with
      | none => simp only [handleItemPickup, hp, hr, hi]; exact seedPres_refl _
      | some it =>
        simp only [handleItemPickup, hp, hr, hi]
        exact seedPres_aset_update _ _ _ _ hr rfl

theorem seedPres_handleChangeRoom (s : ServerState) (sid : String)
    (d : RoomChangeData) (fresh : Nat) :
    SeedPres s.rooms (handleChangeRoom s sid d fresh).1.rooms := by
  cases hp : alookup s.players sid with
  | none => simp only [handleChangeRoom, hp]; exact seedPres_refl _
  | some p =>
    cases ho : alookup s.rooms p.room with
    | some r =>
      have h1 : SeedPres s.rooms (aset s.rooms p.room
          { r with players := removeFirst r.players sid }) :=
        seedPres_aset_update _ _ _ _ ho rfl
      have k1 : KeysMono s.rooms (aset s.rooms p.room
          { r with players := removeFirst r.players sid }) :=
        keysMono_aset_update _ _ _ _ ho
      cases hn : alookup (aset s.rooms p.room
          { r with players := removeFirst r.players sid }) d.room with
      | some r1 =>
        simp only [handleChangeRoom, hp, ho, hn]
        exact seedPres_trans_of_keysMono _ _ _ h1
          (seedPres_aset_update _ _ _ _ hn rfl)
          (keysMono_aset_update _ _ _ _ hn)
      | none =>
        simp only [handleChangeRoom, hp, ho, hn, alookup_aset_self, aset_aset]
        exact seedPres_trans_of_keysPreserved _ _ _ h1
          (seedPres_aset_fresh _ _ _ hn)
          (keysPreserved_aset_update _ _ _ _ ho)
    | none =>
      cases hn : alookup s.rooms d.room with
      | some r1 =>
        simp only [handleChangeRoom, hp, ho, hn]
        exact seedPres_aset_update _ _ _ _ hn rfl
      | none =>
        simp only [handleChangeRoom, hp, ho, hn, alookup_aset_self]
        exact seedPres_trans_of_keysMono _ _ _
          (seedPres_aset_fresh _ _ _ hn)
          (seedPres_aset_update _ _ _ _ (alookup_aset_self _ _ _) rfl)
          (keysMono_aset_update _ _ _ _ (alookup_aset_self _ _ _))

theorem seedPres_handleDisconnect (s : ServerState) (sid : String) :
    SeedPres s.rooms (handleDisconnect s sid).1.rooms := by
  cases hp : alookup s.players sid with
  | none => simp only [handleDisconnect, hp]; exact seedPres_refl _
  | some p =>
    cases hr : alookup s.rooms p.room with
    | none => simp only [handleDisconnect, hp, hr]; exact seedPres_refl _
    | some r =>
      by_cases he : removeFirst r.players sid = []
      · simp only [handleDisconnect, hp, hr, he, if_pos]
        exact seedPres_aerase _ _
      · simp only [handleDisconnect, hp, hr, if_neg he]
        exact seedPres_aset_update _ _ _ _ hr rfl

theorem seedPres_reapOne (s : ServerState) (pid : String) (now : Nat) :
    SeedPres s.rooms (reapOne s pid now).1.rooms := by
  cases hp : alookup s.players pid with
  | none => simp only [reapOne, hp]; exact seedPres_refl _
  | some p =>
    by_cases ht : p.lastUpdated + 5 * 60 * 1000 < now
    · cases hr : alookup s.rooms p.room with
      | none => simp only [reapOne, hp, hr, ht, if_pos]; exact seedPres_refl _
      | some r =>
        by_cases he : removeFirst r.players pid = []
        · simp only [reapOne, hp, hr, ht, he, if_pos]
          exact seedPres_aerase _ _
        · simp only [reapOne, hp, hr, if_pos ht, if_neg he]
          exact seedPres_aset_update _ _ _ _ hr rfl
    · simp only [reapOne, hp, if_neg ht]
      exact seedPres_refl _

theorem keysMono_reapOne (s : ServerState) (pid : String) (now : Nat) :
    KeysMono s.rooms (reapOne s pid now).1.rooms := by
  cases hp : alookup s.players pid with
  | none => simp only [reapOne, hp]; exact keysMono_refl _
  | some p =>
    by_cases ht : p.lastUpdated + 5 * 60 * 1000 < now
    · cases hr : alookup s.rooms p.room with
      | none => simp only [reapOne, hp, hr, ht, if_pos]; exact keysMono_refl _
      | some r =>
        by_cases he : removeFirst r.players pid = []
        · simp only [reapOne, hp, hr, ht, he, if_pos]
          exact keysMono_aerase _ _
        · simp only [reapOne, hp, hr, if_pos ht, if_neg he]
          exact keysMono_aset_update _ _ _ _ hr
    · simp only [reapOne, hp, if_neg ht]
      exact keysMono_refl _

theorem seedPres_reapFold (now : Nat) (pids : List String) :
    ∀ (s : ServerState) (ems : List Emit),
      SeedPres s.rooms ((pids.foldl
        (fun acc pid =>
          let step := reapOne acc.1 pid now
          (step.1, acc.2 ++ step.2)) (s, ems)).1.rooms) ∧
      KeysMono s.rooms ((pids.foldl
        (fun acc pid =>
          let step := reapOne acc.1 pid now
          (step.1, acc.2 ++ step.2)) (s, ems)).1.rooms) := by
  induction pids with
  | nil => intro s ems; exact ⟨seedPres_refl _, keysMono_refl _⟩
  | cons pid rest ih =>
    intro s ems
    simp only [List.foldl_cons]
    have step := ih (reapOne s pid now).1 (ems ++ (reapOne s pid now).2)
    constructor
    · exact seedPres_trans_of_keysMono _ _ _
        (seedPres_reapOne s pid now) step.1 step.2
    · exact keysMono_trans _ _ _ (keysMono_reapOne s pid now) step.2

theorem seedPres_reapInactive (s : ServerState) (now : Nat) :
    SeedPres s.rooms (reapInactive s now).1.rooms := by
  simp only [reapInactive]
  exact (seedPres_reapFold now (s.players.map Prod.fst) s []).1

theorem seedPres_relayStep (s : ServerState) (op : RelayOp) :
    SeedPres s.rooms (relayStep s op).1.rooms := by
  cases op with
  | msg sid m fresh now =>
    cases m with
    | playerJoin d => exact seedPres_handlePlayerJoin s sid d fresh now
    | playerMovement d => exact seedPres_handlePlayerMovement s sid d now
    | playerAttack d => exact seedPres_handlePlayerAttack s sid d
    | playerDamage d => exact seedPres_handlePlayerDamage s sid d
    | playerRespawn d => exact seedPres_handlePlayerRespawn s sid d
    | enemyUpdate e => exact seedPres_handleEnemyUpdate s sid e
    | syncEnemies tbl => exact seedPres_handleSyncEnemies s sid tbl
    | itemUpdate it => exact seedPres_handleItemUpdate s sid it
    | itemPickup d => exact seedPres_handleItemPickup s sid d
    | changeRoom d => exact seedPres_handleChangeRoom s sid d fresh
    | syncItems tbl => exact seedPres_refl _
    | requestFullSync room => exact seedPres_refl _
  | disconnect sid => exact seedPres_handleDisconnect s sid
  | reap now => exact seedPres_reapInactive s now

/-! ## Claims -/

/-- C2: the relay does not answer requestFullSync at all.  server.js
registers no handler for this event, so for every relay state the
message leaves the state unchanged and emits nothing, contradicting the
claimed re-delivery of the room snapshot.  (The client emits the
message and documents it as a request for a full state re-sync, so the
missing handler is a relay bug, not a spec error.) -/
theorem requestFullSync_is_dropped (s : ServerState) (sid : String)
    (room : String) (freshSeed now : Nat) :
    serverStep s sid (.requestFullSync room) freshSeed now = (s, []) := rfl

/-- C7: a room seed is never mutated while the room exists (any relay
operation preserves the seed of every surviving room), and a client
receiving a seed it already holds does not regenerate its level. -/
theorem seed_immutable_and_idempotent :
    (∀ (s : ServerState) (op : RelayOp) (r : String) (room room' : Room),
       alookup s.rooms r = some room →
       alookup (relayStep s op).1.rooms r = some room' →
       room'.seed = room.seed) ∧
    (∀ (st : SceneGenState) (sd : Nat),
       st.currentSeed = some sd → handleDungeonSeed st sd = st) := by
  constructor
  · intro s op r room room' h h'
    exact seedPres_relayStep s op r room room' h h'
  · intro st sd h
    simp [handleDungeonSeed, h]

/-- Witness for C7 at concrete inputs: a syncEnemies step on the fixed
state keeps the seed of room default at 42, and a scene already holding
seed 7 is untouched by receiving seed 7 again. -/
theorem seed_immutable_and_idempotent_witness :
    (alookup sFix.rooms "default" = some roomFix ∧
     alookup (relayStep sFix (.msg "a" (.syncEnemies []) 0 0)).1.rooms "default" =
       some roomFix ∧
     roomFix.seed = roomFix.seed) ∧
    (({ currentSeed := some 7, generationCount := 1 } : SceneGenState).currentSeed =
       some 7 ∧
     handleDungeonSeed { currentSeed := some 7, generationCount := 1 } 7 =
       { currentSeed := some 7, generationCount := 1 }) := by
  refine ⟨⟨rfl, rfl, ?_⟩, rfl, ?_⟩
  · exact seed_immutable_and_idempotent.1 sFix (.msg "a" (.syncEnemies []) 0 0)
      "default" roomFix roomFix rfl rfl
  · exact seed_immutable_and_idempotent.2
      { currentSeed := some 7, generationCount := 1 } 7 rfl

/-- C10: a game message from a socket with no registered PlayerState
leaves the whole relay state unchanged and emits nothing. -/
theorem unregistered_sender_messages_dropped (s : ServerState) (sid : String)
    (m : ClientMsg) (freshSeed now : Nat)
    (hp : alookup s.players sid = none) (hm : isGuardedGameMsg m = true) :
    serverStep s sid m freshSeed now = (s, []) := by
  cases m with
  | playerJoin d => simp [isGuardedGameMsg] at hm
  | playerMovement d => simp [serverStep, handlePlayerMovement, hp]
  | playerAttack d => simp [serverStep, handlePlayerAttack, hp]
  | playerDamage d => simp [serverStep, handlePlayerDamage, hp]
  | playerRespawn d => simp [serverStep, handlePlayerRespawn, hp]
  | enemyUpdate e => simp [serverStep, handleEnemyUpdate, hp]
  | syncEnemies tbl => simp [serverStep, handleSyncEnemies, hp]
  | itemUpdate it => simp [serverStep, handleItemUpdate, hp]
  | itemPickup d => simp [serverStep, handleItemPickup, hp]
  | changeRoom d => simp [serverStep, handleChangeRoom, hp]
  | syncItems tbl => simp [isGuardedGameMsg] at hm
  | requestFullSync room => simp [isGuardedGameMsg] at hm

/-- Witness for C10: a movement message from an unknown socket on the
fixed state is silently dropped. -/
theorem unregistered_sender_messages_dropped_witness :
    alookup sFix.players "ghost" = none ∧
    isGuardedGameMsg (.playerMovement
      { x := 1, y := 2, direction := "up", animation := "walk" }) = true ∧
    serverStep sFix "ghost" (.playerMovement
      { x := 1, y := 2, direction := "up", animation := "walk" }) 0 0 = (sFix, []) := by
  refine ⟨rfl, rfl, ?_⟩
  exact unregistered_sender_messages_dropped sFix "ghost" _ 0 0 rfl rfl

/-- C8: with the attempt counter at n below the maximum, a transport
error increments the counter and schedules a retry after exactly
min (1000 * 2 ^ n) 10000 milliseconds; the delay is non-decreasing in
the attempt number; and a successful connect resets the counter to 0. -/
theorem backoff_delay_and_reset (st : ServiceState) (n : Nat)
    (h : st.conn.reconnectAttempts = n) (hn : n < 15) :
    (handleTransportError st).1.conn.reconnectAttempts = n + 1 ∧
    (handleTransportError st).1.reconnectTimerDelay =
      some (min (1000 * 2 ^ n) 10000) ∧
    (∀ m k : Nat, m ≤ k → reconnectDelay (m + 1) ≤ reconnectDelay (k + 1)) ∧
    (∀ st' : ServiceState, (onConnect st').conn.reconnectAttempts = 0) := by
  refine ⟨?_, ?_, ?_, ?_⟩
  · simp [handleTransportError, h, hn]
  · simp [handleTransportError, h, hn, reconnectDelay]
  · intro m k hmk
    simp only [reconnectDelay, Nat.add_sub_cancel]
    exact min_le_min
      (Nat.mul_le_mul_left _ (Nat.pow_le_pow_right (by norm_num) hmk))
      (le_refl _)
  · intro st'
    simp [onConnect]

/-- Witness for C8 at a counter value of 3: the next delay is 8000 ms
and the counter moves to 4. -/
theorem backoff_delay_and_reset_witness :
    (({ conn := { initConnectionState with reconnectAttempts := 3 },
        reconnectTimerDelay := none, offlineTimerPeriod := none } :
        ServiceState).conn.reconnectAttempts = 3 ∧ 3 < 15) ∧
    (handleTransportError
      { conn := { initConnectionState with reconnectAttempts := 3 },
        reconnectTimerDelay := none,
        offlineTimerPeriod := none }).1.conn.reconnectAttempts = 4 ∧
    (handleTransportError
      { conn := { initConnectionState with reconnectAttempts := 3 },
        reconnectTimerDelay := none,
        offlineTimerPeriod := none }).1.reconnectTimerDelay = some 8000 := by
  have h := backoff_delay_and_reset
    { conn := { initConnectionState with reconnectAttempts := 3 },
      reconnectTimerDelay := none, offlineTimerPeriod := none } 3 rfl (by norm_num)
  exact ⟨⟨rfl, by norm_num⟩, h.1, by rw [h.2.1]; norm_num⟩

/-- C9: once the counter has reached the maximum, handleTransportError
only shows a terminal error and dispatches an offlineMode event that no
component of the code base has registered a handler for, so offline
mode is never entered: the offline flag stays false, no fabricated
identity is assigned and no 30 second probe is scheduled.  The
enableOfflineMode method that would do all three exists but is never
invoked; evaluating it here shows what the claimed transition would
have produced. -/
theorem offline_mode_never_entered :
    (handleTransportError stMaxAttempts).1.conn.offlineMode = false ∧
    (handleTransportError stMaxAttempts).1.conn.playerId = none ∧
    (handleTransportError stMaxAttempts).1.offlineTimerPeriod = none ∧
    (handleTransportError stMaxAttempts).2 =
      [ .statusShown "error", .eventTriggered "connectionStatus",
        .eventTriggered "offlineMode" ] ∧
    registeredClientEvents.contains "offlineMode" = false ∧
    (enableOfflineMode stMaxAttempts 0).1.conn.offlineMode = true ∧
    (enableOfflineMode stMaxAttempts 0).1.conn.playerId = some "offline-0" ∧
    (enableOfflineMode stMaxAttempts 0).1.offlineTimerPeriod = some 30000 :=
  ⟨rfl, rfl, rfl, rfl, rfl, rfl, rfl, rfl⟩

/-- C1 counterexample: on the fixed two-player state, a syncItems
message carrying one item leaves the room item table empty and emits
nothing, because server.js registers no syncItems handler. -/
theorem host_wholesale_sync_counterexample : ¬ hostWholesaleSyncClaim := by
  intro h
  have h2 := (h sFix "a" (pFix "a" "default") roomFix rfl rfl).2
    [("i1", itemFix)] 0 0
  exact absurd h2.1 (by decide)

/-- C1 amended: syncEnemies from a joined sender replaces the entire
room enemy table with the id-keyed entries of the supplied table and
rebroadcasts it as currentEnemies to the room except the sender, while
syncItems has no relay handler and is silently dropped. -/
theorem sync_enemies_wholesale_items_dropped (s : ServerState) (sid : String)
    (p : PlayerState) (room : Room)
    (hp : alookup s.players sid = some p)
    (hr : alookup s.rooms p.room = some room)
    (tblE : List (String × EnemyData)) (tblI : List (String × ItemData))
    (fresh now : Nat) :
    serverStep s sid (.syncEnemies tblE) fresh now =
      ({ s with rooms := (aset s.rooms p.room
           { room with enemies := idKeyedEnemies tblE }) },
       [ { event := "currentEnemies", target := .roomExcept p.room sid,
           payload := .enemiesTable (idKeyedEnemies tblE) } ]) ∧
    serverStep s sid (.syncItems tblI) fresh now = (s, []) := by
  constructor
  · simp [serverStep, handleSyncEnemies, hp, hr]
  · rfl

/-- Witness for the amended C1 at concrete inputs: player a syncs one
enemy into room default; a syncItems message from the same player is
dropped. -/
theorem sync_enemies_wholesale_items_dropped_witness :
    alookup sFix.players "a" = some (pFix "a" "default") ∧
    alookup sFix.rooms (pFix "a" "default").room = some roomFix ∧
    (serverStep sFix "a" (.syncEnemies [("e1", enemyFix)]) 0 0 =
      ({ sFix with rooms := (aset sFix.rooms (pFix "a" "default").room
           { roomFix with enemies := idKeyedEnemies [("e1", enemyFix)] }) },
       [ { event := "currentEnemies",
           target := .roomExcept (pFix "a" "default").room "a",
           payload := .enemiesTable (idKeyedEnemies [("e1", enemyFix)]) } ]) ∧
     serverStep sFix "a" (.syncItems [("i1", itemFix)]) 0 0 = (sFix, [])) := by
  refine ⟨rfl, rfl, ?_⟩
  exact sync_enemies_wholesale_items_dropped sFix "a" (pFix "a" "default")
    roomFix rfl rfl [("e1", enemyFix)] [("i1", itemFix)] 0 0

/-- C3 counterexample: when player a joins room default while player z
is joined to room other, the currentPlayers reply contains z, whose
room is other, so the reply is the global players table and not the
room snapshot the claim describes. -/
theorem join_reply_not_room_scoped_counterexample : ¬ joinRepliesRoomScopedClaim := by
  intro h
  have hm : ({ event := "currentPlayers", target := .toSocket "a",
               payload := .playersTable tblC3 } : Emit) ∈
      (serverStep sC3 "a" (.playerJoin jdC3) 5 0).2 := by decide
  have hq := h sC3 "a" jdC3 5 0 _ hm rfl tblC3 rfl ("z", pFix "z" "other") (by decide)
  exact absurd hq (by decide)

/-- C3 amended: playerJoin creates the room with the fresh seed when it
is unseen (or appends to the existing roster), and replies to the
joiner with the GLOBAL players table (all connected players, whatever
their room), the room seed, the room enemy and item tables, and
announces the new player to the other members of that room only. -/
theorem join_behavior (s : ServerState) (sid : String) (d : JoinData)
    (fresh now : Nat) :
    (alookup s.rooms (mkJoinPlayer s sid d now).room = none →
      serverStep s sid (.playerJoin d) fresh now =
        ({ players := aset s.players sid (mkJoinPlayer s sid d now),
           rooms := (aset s.rooms (mkJoinPlayer s sid d now).room
             { players := [sid], seed := fresh, enemies := [], items := [] }) },
         [ { event := "currentPlayers", target := .toSocket sid,
             payload := .playersTable (aset s.players sid (mkJoinPlayer s sid d now)) },
           { event := "dungeonSeed", target := .toSocket sid, payload := .seedValue fresh },
           { event := "currentEnemies", target := .toSocket sid, payload := .enemiesTable [] },
           { event := "currentItems", target := .toSocket sid, payload := .itemsTable [] },
           { event := "newPlayer",
             target := .roomExcept (mkJoinPlayer s sid d now).room sid,
             payload := .player (mkJoinPlayer s sid d now) } ])) ∧
    (∀ room, alookup s.rooms (mkJoinPlayer s sid d now).room = some room →
      serverStep s sid (.playerJoin d) fresh now =
        ({ players := aset s.players sid (mkJoinPlayer s sid d now),
           rooms := (aset s.rooms (mkJoinPlayer s sid d now).room
             { room with players := room.players ++ [sid] }) },
         [ { event := "currentPlayers", target := .toSocket sid,
             payload := .playersTable (aset s.players sid (mkJoinPlayer s sid d now)) },
           { event := "dungeonSeed", target := .toSocket sid,
             payload := .seedValue room.seed },
           { event := "currentEnemies", target := .toSocket sid,
             payload := .enemiesTable room.enemies },
           { event := "currentItems", target := .toSocket sid,
             payload := .itemsTable room.items },
           { event := "newPlayer",
             target := .roomExcept (mkJoinPlayer s sid d now).room sid,
             payload := .player (mkJoinPlayer s sid d now) } ])) := by
  constructor
  · intro hm
    simp [serverStep, handlePlayerJoin, hm, alookup_aset_self, aset_aset, freshRoom]
  · intro room hm
    simp [serverStep, handlePlayerJoin, hm, alookup_aset_self]

/-- Witness for the amended C3: on the fixed state (room default with
seed 42), a join to the unseen room fresh creates it with the supplied
seed 9, and the reply carries the global players table. -/
theorem join_behavior_witness :
    alookup sFix.rooms (mkJoinPlayer sFix "c"
      { name := none, x := none, y := none, health := none, direction := none,
        animation := none, room := some "fresh" } 0).room = none ∧
    serverStep sFix "c" (.playerJoin
      { name := none, x := none, y := none, health := none, direction := none,
        animation := none, room := some "fresh" }) 9 0 =
      ({ players := aset sFix.players "c" (mkJoinPlayer sFix "c"
           { name := none, x := none, y := none, health := none, direction := none,
             animation := none, room := some "fresh" } 0),
         rooms := (aset sFix.rooms (mkJoinPlayer sFix "c"
           { name := none, x := none, y := none, health := none, direction := none,
             animation := none, room := some "fresh" } 0).room
           { players := ["c"], seed := 9, enemies := [], items := [] }) },
       [ { event := "currentPlayers", target := .toSocket "c",
           payload := .playersTable (aset sFix.players "c" (mkJoinPlayer sFix "c"
             { name := none, x := none, y := none, health := none, direction := none,
               animation := none, room := some "fresh" } 0)) },
         { event := "dungeonSeed", target := .toSocket "c", payload := .seedValue 9 },
         { event := "currentEnemies", target := .toSocket "c", payload := .enemiesTable [] },
         { event := "currentItems", target := .toSocket "c", payload := .itemsTable [] },
         { event := "newPlayer",
           target := .roomExcept (mkJoinPlayer sFix "c"
             { name := none, x := none, y := none, health := none, direction := none,
               animation := none, room := some "fresh" } 0).room "c",
           payload := .player (mkJoinPlayer sFix "c"
             { name := none, x := none, y := none, health := none, direction := none,
               animation := none, room := some "fresh" } 0) } ]) := by
  refine ⟨rfl, ?_⟩
  exact (join_behavior sFix "c"
    { name := none, x := none, y := none, health := none, direction := none,
      animation := none, room := some "fresh" } 9 0).1 rfl

/-- C4 counterexample: a playerDamage message on the fixed state does
not stamp lastUpdated (it stays 0 while now is 5); the handler also
broadcasts a partial health record through io.to, which reaches the
sender.  Either failure alone refutes the claim as stated. -/
theorem update_broadcast_counterexample : ¬ updateBroadcastClaim := by
  intro h
  have hd := (h sFix "a" 5 (pFix "a" "default") rfl).2.2.1 { health := 50 }
  have hq := hd { pFix "a" "default" with health := 50 } (by decide)
  exact absurd hq.1 (by decide)

/-- C4 amended: only playerMovement matches the claim (mutates the
moved fields, stamps lastUpdated, broadcasts the full PlayerState to
the room except the sender).  playerAttack broadcasts a partial record
to the room except the sender without stamping; playerDamage and
playerRespawn broadcast partial records through io.to to every room
member INCLUDING the sender, without stamping, and playerRespawn forces
health to 100 although the message carries only a position. -/
theorem player_update_behavior (s : ServerState) (sid : String)
    (p : PlayerState) (hp : alookup s.players sid = some p) (now : Nat) :
    (∀ d : MovementData,
       serverStep s sid (.playerMovement d) 0 now =
         ({ s with players := (aset s.players sid
              { p with x := d.x, y := d.y, direction := d.direction,
                       animation := d.animation, lastUpdated := now }) },
          [ { event := "playerMoved", target := .roomExcept p.room sid,
              payload := .player ({ p with
                                    x := d.x, y := d.y,
                                    direction := d.direction,
                                    animation := d.animation,
                                    lastUpdated := now }) } ])) ∧
    (∀ d : AttackData,
       serverStep s sid (.playerAttack d) 0 now =
         ({ s with players := (aset s.players sid
              { p with isAttacking := true, attackDirection := some d.direction }) },
          [ { event := "playerAttacked", target := .roomExcept p.room sid,
              payload := .attackInfo sid d.direction p.x p.y } ])) ∧
    (∀ d : DamageData,
       serverStep s sid (.playerDamage d) 0 now =
         ({ s with players := (aset s.players sid { p with health := d.health }) },
          if d.health ≤ 0 then
            [ { event := "playerHealthUpdate", target := .roomAll p.room,
                payload := .healthInfo sid d.health },
              { event := "playerDied", target := .roomAll p.room,
                payload := .idInfo sid } ]
          else
            [ { event := "playerHealthUpdate", target := .roomAll p.room,
                payload := .healthInfo sid d.health } ])) ∧
    (∀ d : RespawnData,
       serverStep s sid (.playerRespawn d) 0 now =
         ({ s with players := (aset s.players sid
              { p with x := d.x, y := d.y, health := 100 }) },
          [ { event := "playerRespawned", target := .roomAll p.room,
              payload := .respawnInfo sid d.x d.y 100 } ])) ∧
    (∀ d : DamageData, sid ∈ roomMembers s p.room →
       sid ∈ recipients (serverStep s sid (.playerDamage d) 0 now).1
         { event := "playerHealthUpdate", target := .roomAll p.room,
           payload := .healthInfo sid d.health }) := by
  refine ⟨?_, ?_, ?_, ?_, ?_⟩
  · intro d
    simp [serverStep, handlePlayerMovement, hp]
  · intro d
    simp [serverStep, handlePlayerAttack, hp]
  · intro d
    by_cases hh : d.health ≤ 0
    · simp [serverStep, handlePlayerDamage, hp, hh]
    · simp [serverStep, handlePlayerDamage, hp, hh]
  · intro d
    simp [serverStep, handlePlayerRespawn, hp]
  · intro d hmem
    simp only [serverStep, handlePlayerDamage, hp, recipients, roomMembers]
    exact hmem

/-- Witness for the amended C4 at concrete inputs on the fixed state:
a damage message from player a (roster a, b) reaches the sender a. -/
theorem player_update_behavior_witness :
    alookup sFix.players "a" = some (pFix "a" "default") ∧
    serverStep sFix "a" (.playerDamage { health := 50 }) 0 7 =
      ({ sFix with players := (aset sFix.players "a"
           { pFix "a" "default" with health := 50 }) },
       [ { event := "playerHealthUpdate",
           target := .roomAll (pFix "a" "default").room,
           payload := .healthInfo "a" 50 } ]) ∧
    "a" ∈ roomMembers sFix (pFix "a" "default").room ∧
    "a" ∈ recipients (serverStep sFix "a" (.playerDamage { health := 50 }) 0 7).1
      { event := "playerHealthUpdate",
        target := .roomAll (pFix "a" "default").room,
        payload := .healthInfo "a" 50 } := by
  have h := player_update_behavior sFix "a" (pFix "a" "default") rfl 7
  refine ⟨rfl, ?_, by decide, ?_⟩
  · have h3 := h.2.2.1 { health := 50 }
    simpa using h3
  · exact h.2.2.2.2 { health := 50 } (by decide)

/-- C6 counterexample: a replica receiving an empty enemy table
destroys its live local enemy e1 immediately, although e1 is not dead:
enemies ARE removed merely by absence from the incoming table. -/
theorem replica_prune_counterexample : ¬ replicaPruneClaim := by
  intro h
  have hq := h.2 [cEnemyFix] [] cEnemyFix "e1" (by decide) rfl (by decide) rfl
  exact absurd hq (by decide)

/-- C6 amended: a replica removes every locally-instantiated entity,
item OR enemy, whose id is absent from the incoming table, immediately
(for an enemy present in the table, the isDead flag additionally
triggers the death animation path, which also splices it out). -/
theorem replica_prunes_absent_entities :
    (∀ (its : List ClientItem) (incoming : List (String × ItemData))
       (it : ClientItem) (i : String),
       it ∈ handleItemsUpdated true false its incoming → it.id = some i →
       (incoming.map Prod.fst).contains i = true) ∧
    (∀ (es : List ClientEnemy) (incoming : List (String × EnemyData))
       (e : ClientEnemy) (i : String),
       e ∈ handleEnemiesUpdated true false es incoming → e.id = some i →
       (incoming.map Prod.fst).contains i = true) := by
  constructor
  · intro its incoming it i hmem hid
    simp only [handleItemsUpdated, Bool.not_true, Bool.false_eq_true,
      if_false] at hmem
    have hp := (List.mem_filter.mp hmem).2
    rw [hid] at hp
    exact hp
  · intro es incoming e i hmem hid
    simp only [handleEnemiesUpdated, Bool.not_true, Bool.false_eq_true,
      if_false] at hmem
    have hp := (List.mem_filter.mp hmem).2
    rw [hid] at hp
    exact hp

/-- Witness for the amended C6: a replica holding item i1 and enemy e1
applies tables still containing those ids; the surviving updated
instances indeed carry ids present in the tables. -/
theorem replica_prunes_absent_entities_witness :
    (({ id := some "i1", itype := "coin", x := 5, y := 6, collected := false,
        isOpen := none, quality := none, value := some 1 } : ClientItem) ∈
       handleItemsUpdated true false
         [{ id := some "i1", itype := "coin", x := 0, y := 0, collected := false,
            isOpen := none, quality := none, value := some 1 }]
         [("i1", itemFix)] ∧
     ((([("i1", itemFix)] : List (String × ItemData)).map Prod.fst).contains "i1" = true)) ∧
    (({ cEnemyFix with health := 50, serverControlled := true } : ClientEnemy) ∈
       handleEnemiesUpdated true false [cEnemyFix] [("e1", enemyFix)] ∧
     ((([("e1", enemyFix)] : List (String × EnemyData)).map Prod.fst).contains "e1" = true)) := by
  constructor
  · refine ⟨by decide, ?_⟩
    exact replica_prunes_absent_entities.1
      [{ id := some "i1", itype := "coin", x := 0, y := 0, collected := false,
         isOpen := none, quality := none, value := some 1 }]
      [("i1", itemFix)]
      { id := some "i1", itype := "coin", x := 5, y := 6, collected := false,
        isOpen := none, quality := none, value := some 1 } "i1" (by decide) rfl
  · refine ⟨by decide, ?_⟩
    exact replica_prunes_absent_entities.2 [cEnemyFix] [("e1", enemyFix)]
      { cEnemyFix with health := 50, serverControlled := true } "e1" (by decide) rfl

theorem nr_aset (l : List (String × Room)) (k : String) (v : Room)
    (h : NR l) (hv : v.players ≠ []) : NR (aset l k v) := by
  intro kv hm
  rcases mem_aset _ _ _ _ hm with h1 | h1
  · rw [h1]
    exact hv
  · exact h kv h1

theorem nr_aerase (l : List (String × Room)) (k : String) (h : NR l) :
    NR (aerase l k) :=
  fun kv hm => h kv (mem_aerase _ _ _ hm)

theorem nr_handlePlayerJoin (s : ServerState) (sid : String) (d : JoinData)
    (fresh now : Nat) (h : NR s.rooms) :
    NR (handlePlayerJoin s sid d fresh now).1.rooms := by
  cases hx : alookup s.rooms (mkJoinPlayer s sid d now).room with
  | some r0 =>
    simp only [handlePlayerJoin, hx]
    exact nr_aset _ _ _ h (by simp)
  | none =>
    simp only [handlePlayerJoin, hx, alookup_aset_self, aset_aset]
    exact nr_aset _ _ _ h (by simp)

theorem nr_handlePlayerMovement (s : ServerState) (sid : String)
    (d : MovementData) (now : Nat) (h : NR s.rooms) :
    NR (handlePlayerMovement s sid d now).1.rooms := by
  cases hp : alookup s.players sid <;>
    simp only [handlePlayerMovement, hp] <;> exact h

theorem nr_handlePlayerAttack (s : ServerState) (sid : String)
    (d : AttackData) (h : NR s.rooms) :
    NR (handlePlayerAttack s sid d).1.rooms := by
  cases hp : alookup s.players sid <;>
    simp only [handlePlayerAttack, hp] <;> exact h

theorem nr_handlePlayerDamage (s : ServerState) (sid : String)
    (d : DamageData) (h : NR s.rooms) :
    NR (handlePlayerDamage s sid d).1.rooms := by
  cases hp : alookup s.players sid <;>
    simp only [handlePlayerDamage, hp] <;> exact h

theorem nr_handlePlayerRespawn (s : ServerState) (sid : String)
    (d : RespawnData) (h : NR s.rooms) :
    NR (handlePlayerRespawn s sid d).1.rooms := by
  cases hp : alookup s.players sid <;>
    simp only [handlePlayerRespawn, hp] <;> exact h

theorem nr_handleEnemyUpdate (s : ServerState) (sid : String) (e : EnemyData)
    (h : NR s.rooms) : NR (handleEnemyUpdate s sid e).1.rooms := by
  cases hp : alookup s.players sid with
  | none => simp only [handleEnemyUpdate, hp]; exact h
  | some p =>
    cases hr : alookup s.rooms p.room with
    | none => simp only [handleEnemyUpdate, hp, hr]; exact h
    | some r =>
      simp only [handleEnemyUpdate, hp, hr]
      exact nr_aset _ _ _ h (h (p.room, r) (alookup_mem _ _ _ hr))

theorem nr_handleSyncEnemies (s : ServerState) (sid : String)
    (tbl : List (String × EnemyData)) (h : NR s.rooms) :
    NR (handleSyncEnemies s sid tbl).1.rooms := by
  cases hp : alookup s.players sid with
  | none => simp only [handleSyncEnemies, hp]; exact h
  | some p =>
    cases hr : alookup s.rooms p.room with
    | none => simp only [handleSyncEnemies, hp, hr]; exact h
    | some r =>
      simp only [handleSyncEnemies, hp, hr]
      exact nr_aset _ _ _ h (h (p.room, r) (alookup_mem _ _ _ hr))

theorem nr_handleItemUpdate (s : ServerState) (sid : String) (it : ItemData)
    (h : NR s.rooms) : NR (handleItemUpdate s sid it).1.rooms := by
  cases hp : alookup s.players sid with
  | none => simp only [handleItemUpdate, hp]; exact h
  | some p =>
    cases hr : alookup s.rooms p.room with
    | none => simp only [handleItemUpdate, hp, hr]; exact h
    | some r =>
      simp only [handleItemUpdate, hp, hr]
      exact nr_aset _ _ _ h (h (p.room, r) (alookup_mem _ _ _ hr))

theorem nr_handleItemPickup (s : ServerState) (sid : String) (d : PickupData)
    (h : NR s.rooms) : NR (handleItemPickup s sid d).1.rooms := by
  cases hp : alookup s.players sid with
  | none => simp only [handleItemPickup, hp]; exact h
  | some p =>
    cases hr : alookup s.rooms p.room with
    | none => simp only [handleItemPickup, hp, hr]; exact h
    | some r =>
      cases hi : alookup r.items d.id with
      | none => simp only [handleItemPickup, hp, hr, hi]; exact h
      | some it =>
        simp only [handleItemPickup, hp, hr, hi]
        exact nr_aset _ _ _ h (h (p.room, r) (alookup_mem _ _ _ hr))

theorem nr_handleDisconnect (s : ServerState) (sid : String) (h : NR s.rooms) :
    NR (handleDisconnect s sid).1.rooms := by
  cases hp : alookup s.players sid with
  | none => simp only [handleDisconnect, hp]; exact h
  | some p =>
    cases hr : alookup s.rooms p.room with
    | none => simp only [handleDisconnect, hp, hr]; exact h
    | some r =>
      by_cases he : removeFirst r.players sid = []
      · simp only [handleDisconnect, hp, hr, he, if_pos]
        exact nr_aerase _ _ h
      · simp only [handleDisconnect, hp, hr, if_neg he]
        exact nr_aset _ _ _ h he

theorem nr_reapOne (s : ServerState) (pid : String) (now : Nat) (h : NR s.rooms) :
    NR (reapOne s pid now).1.rooms := by
  cases hp : alookup s.players pid with
  | none => simp only [reapOne, hp]; exact h
  | some p =>
    by_cases ht : p.lastUpdated + 5 * 60 * 1000 < now
    · cases hr : alookup s.rooms p.room with
      | none => simp only [reapOne, hp, hr, ht, if_pos]; exact h
      | some r =>
        by_cases he : removeFirst r.players pid = []
        · simp only [reapOne, hp, hr, ht, he, if_pos]
          exact nr_aerase _ _ h
        · simp only [reapOne, hp, hr, if_pos ht, if_neg he]
          exact nr_aset _ _ _ h he
    · simp only [reapOne, hp, if_neg ht]
      exact h

theorem nr_reapFold (now : Nat) (pids : List String) :
    ∀ (s : ServerState) (ems : List Emit), NR s.rooms →
      NR ((pids.foldl
        (fun acc pid =>
          let step := reapOne acc.1 pid now
          (step.1, acc.2 ++ step.2)) (s, ems)).1.rooms) := by
  induction pids with
  | nil => intro s ems h; exact h
  | cons pid rest ih =>
    intro s ems h
    simp only [List.foldl_cons]
    exact ih (reapOne s pid now).1 (ems ++ (reapOne s pid now).2)
      (nr_reapOne s pid now h)

theorem nr_reapInactive (s : ServerState) (now : Nat) (h : NR s.rooms) :
    NR (reapInactive s now).1.rooms := by
  simp only [reapInactive]
  exact nr_reapFold now (s.players.map Prod.fst) s [] h

/-- C5 counterexample: after the join and the room change, room a
survives with an empty roster, because the changeRoom handler, unlike
disconnect and the reaper, never deletes the emptied old room. -/
theorem room_lifecycle_counterexample : ¬ roomLifecycleClaim := by
  intro h
  have hq := h opsC5 (by decide)
    ("a", { players := [], seed := 1, enemies := [], items := [] }) (by decide)
  exact hq rfl

theorem nr_relayStep (s : ServerState) (op : RelayOp)
    (hop : isChangeRoomOp op = false) (h : NR s.rooms) :
    NR (relayStep s op).1.rooms := by
  cases op with
  | msg sid m fresh now =>
    cases m with
    | playerJoin d => exact nr_handlePlayerJoin s sid d fresh now h
    | playerMovement d => exact nr_handlePlayerMovement s sid d now h
    | playerAttack d => exact nr_handlePlayerAttack s sid d h
    | playerDamage d => exact nr_handlePlayerDamage s sid d h
    | playerRespawn d => exact nr_handlePlayerRespawn s sid d h
    | enemyUpdate e => exact nr_handleEnemyUpdate s sid e h
    | syncEnemies tbl => exact nr_handleSyncEnemies s sid tbl h
    | itemUpdate it => exact nr_handleItemUpdate s sid it h
    | itemPickup d => exact nr_handleItemPickup s sid d h
    | changeRoom d => simp [isChangeRoomOp] at hop
    | syncItems tbl => exact h
    | requestFullSync room => exact h
  | disconnect sid => exact nr_handleDisconnect s sid h
  | reap now => exact nr_reapInactive s now h

theorem nr_runRelay (ops : List RelayOp) :
    ∀ s : ServerState, NR s.rooms →
      (∀ op ∈ ops, isChangeRoomOp op = false) →
      NR (runRelay s ops).rooms := by
  induction ops with
  | nil => intro s h _; exact h
  | cons op rest ih =>
    intro s h hops
    simp only [runRelay]
    exact ih (relayStep s op).1
      (nr_relayStep s op (hops op (List.mem_cons_self _ _)) h)
      (fun o ho => hops o (List.mem_cons_of_mem _ ho))

/-- C5 amended: in every relay state reachable from the empty relay by
join, disconnect and reaper-sweep operations (any non-changeRoom
operation, in fact), no room with an empty roster exists; changeRoom is
excluded because it leaves the emptied old room in place. -/
theorem no_empty_rooms_without_changeRoom (ops : List RelayOp)
    (hops : ∀ op ∈ ops, isChangeRoomOp op = false) :
    ∀ kv ∈ (runRelay initServer ops).rooms, kv.2.players ≠ [] :=
  nr_runRelay ops initServer (fun kv hm => absurd hm (by simp [initServer])) hops

/-- Witness for the amended C5: player a joins room a and disconnects;
the resulting registry (room a deleted) has no empty rooms. -/
theorem no_empty_rooms_without_changeRoom_witness :
    (∀ op ∈ ([ .msg "a" (.playerJoin
        { name := none, x := none, y := none, health := none,
          direction := none, animation := none, room := some "a" }) 1 0,
      .disconnect "a" ] : List RelayOp), isChangeRoomOp op = false) ∧
    (∀ kv ∈ (runRelay initServer
      [ .msg "a" (.playerJoin
          { name := none, x := none, y := none, health := none,
            direction := none, animation := none, room := some "a" }) 1 0,
        .disconnect "a" ]).rooms, kv.2.players ≠ []) := by
  refine ⟨by decide, ?_⟩
  exact no_empty_rooms_without_changeRoom _ (by decide)

end DungeonCrawler
